import Mathlib

/-!
Verification of the retry/admission logic in `functions/tips/main.py`.

The file shallowly embeds the three functions the claims are about:
`avoid_infinite_retries` (the Admission Filter), `retry_or_not` (the Retry
Classifier), and `lazy_globals` (lazily initialized module globals), together
with the Python data they manipulate (event payload dictionaries with Python
truthiness, the module-level globals, the external error-reporting client).
Timestamps are modelled in microseconds (the resolution of Python
`datetime`); ages are rationals in milliseconds, mirroring
`(datetime.now() - event_time).total_seconds() * 1000`.
-/

namespace FunctionsTips

/-- A Python value as it can appear in an event payload dictionary.
Covers the cases the claims need: `None`, booleans, integers, strings. -/
inductive PyVal where
  | pynone
  | pybool (b : Bool)
  | pyint (n : Int)
  | pystr (s : String)
  deriving DecidableEq, Repr

/-- Python truthiness: `None`, `False`, `0` and the empty string are falsy;
everything else here is truthy. This is what `if event.data.get('retry'):`
evaluates. -/
def PyVal.truthy : PyVal → Bool
  | .pynone => false
  | .pybool b => b
  | .pyint n => n != 0
  | .pystr s => s != ""

/-- `dict.get(k)`: the value bound to `k`, or `None` when the key is absent. -/
def dictGet (d : List (String × PyVal)) (k : String) : PyVal :=
  match d.find? (fun p => p.fst == k) with
  | Option.none => PyVal.pynone
  | Option.some p => p.snd

/-- A background-function event: `event.timestamp` (an unparsed string) and
`event.data` (the payload dictionary). -/
structure Event where
  timestamp : String
  data : List (String × PyVal)
  deriving DecidableEq, Repr

/-- The delivery context; only `context.event_id` is read by the code. -/
structure Context where
  event_id : String
  deriving DecidableEq, Repr

/-- Failure of the Admission Filter call: `parser.parse` raised on an
unparsable timestamp, so the call aborts with no Process/Drop decision. -/
inductive AdmitError where
  | malformedTimestamp
  deriving DecidableEq, Repr

/-- One observability record, as printed by
`print('Dropped/Processed {} (age {}ms)'.format(context.event_id, event_age))`. -/
structure LogRecord where
  tag : String
  event_id : String
  age_ms : ℚ
  deriving DecidableEq, Repr

/-- The successful result of `avoid_infinite_retries`: what was printed and
the Python return value (`'Timeout'` on drop, `None` on normal processing). -/
structure AdmitResult where
  logs : List LogRecord
  retval : Option String
  deriving DecidableEq, Repr

/-- The spec's two-valued admission decision. -/
inductive Decision where
  | Process
  | Drop
  deriving DecidableEq, Repr

/-- The decision an `AdmitResult` encodes: returning `'Timeout'` is `Drop`,
returning `None` is `Process`. -/
def AdmitResult.decision (r : AdmitResult) : Decision :=
  if r.retval = Option.some "Timeout" then Decision.Drop else Decision.Process

/-- Event age in milliseconds, from timestamps in microseconds:
`(datetime.now() - event_time).total_seconds() * 1000`. -/
def event_age (now event_time : Int) : ℚ :=
  ((now - event_time : Int) : ℚ) / 1000

/-- `avoid_infinite_retries(event, context)` from `functions/tips/main.py`.
`parse` abstracts `dateutil.parser.parse` (an external library): it returns
the parsed time in microseconds, or nothing when the string is unparsable,
in which case the Python call raises. `now` is `datetime.now()` in
microseconds. The age threshold `10000` ms is hardcoded in the source. -/
def avoid_infinite_retries (parse : String → Option Int) (now : Int)
    (event : Event) (context : Context) : Except AdmitError AdmitResult :=
  match parse event.timestamp with
  | Option.none => Except.error AdmitError.malformedTimestamp
  | Option.some event_time =>
    let age := event_age now event_time
    if age > 10000 then
      Except.ok ⟨[⟨"Dropped", context.event_id, age⟩], Option.some "Timeout"⟩
    else
      Except.ok ⟨[⟨"Processed", context.event_id, age⟩], Option.none⟩

/-- Events of one execution of `retry_or_not`, in program order. -/
inductive REv where
  | readRetry (value : PyVal)
  | handlerRaised (msg : String)
  | reportCall
  | decided (propagate : Bool)
  deriving DecidableEq, Repr

/-- How one call to `retry_or_not` terminates, as seen by the delivery
system: an exception propagates (`raised` re-raises the handler failure,
`sinkRaised` propagates an exception thrown by
`error_client.report_exception()`), or the call returns normally. -/
inductive ROutcome where
  | raised (msg : String)
  | sinkRaised (msg : String)
  | returned
  deriving DecidableEq, Repr

/-- `retry_or_not(event, context)` from `functions/tips/main.py`, as a trace
of its observable events plus its termination. `sinkError` models the
behavior of the external `error_client.report_exception()` call: `none`
means it succeeds, `some msg` means it raises an exception with that
message. The source does not guard the report call with `try`, so a sink
exception propagates before `try_again` is consulted. -/
def retry_or_not (sinkError : Option String) (event : Event)
    (context : Context) : List REv × ROutcome :=
  let retryVal := dictGet event.data "retry"
  let try_again := retryVal.truthy
  let tr0 : List REv := [REv.readRetry retryVal, REv.handlerRaised "I failed you"]
  match sinkError with
  | Option.some msg => (tr0 ++ [REv.reportCall], ROutcome.sinkRaised msg)
  | Option.none =>
    if try_again then
      (tr0 ++ [REv.reportCall, REv.decided true], ROutcome.raised "I failed you")
    else
      (tr0 ++ [REv.reportCall, REv.decided false], ROutcome.returned)

/-- Number of calls the Failure Sink received in a trace. -/
def reportCalls (tr : List REv) : Nat := tr.count REv.reportCall

/-- The module-level mutable environment shared by handler invocations:
cumulative records printed to stdout and cumulative calls made on the
module-global `error_client`. -/
structure ModuleState where
  printedRecords : List LogRecord
  reportsMade : Nat
  deriving DecidableEq, Repr

/-- Running `avoid_infinite_retries` against the module state: prints
accumulate; nothing else in module state is read or written. -/
def admitRun (parse : String → Option Int) (now : Int) (event : Event)
    (context : Context) (s : ModuleState) :
    ModuleState × Except AdmitError AdmitResult :=
  match avoid_infinite_retries parse now event context with
  | Except.error e => (s, Except.error e)
  | Except.ok r =>
    ({ s with printedRecords := s.printedRecords ++ r.logs }, Except.ok r)

/-- Running `retry_or_not` against the module state: the report calls of its
trace accumulate on the module-global `error_client`; nothing else in module
state is read or written. -/
def classifyRun (sinkError : Option String) (event : Event) (context : Context)
    (s : ModuleState) : ModuleState × ROutcome :=
  let p := retry_or_not sinkError event context
  ({ s with reportsMade := s.reportsMade + reportCalls p.fst }, p.snd)

/-- `file_wide_computation()`: `sum(range(10))`. -/
def file_wide_computation : Nat := (List.range 10).sum

/-- `function_specific_computation()`: `sum(range(10))`. -/
def function_specific_computation : Nat := (List.range 10).sum

/-- The module globals of the lazy-globals sample, plus an instrumentation
counter for how many times `function_specific_computation()` has run.
`lazy_global` holds `None` or an integer. -/
structure LazyState where
  lazy_global : Option Nat
  non_lazy_global : Nat
  fscRuns : Nat
  deriving DecidableEq, Repr

/-- Module load (cold start): `non_lazy_global = file_wide_computation()`,
`lazy_global = None`. -/
def coldStart : LazyState :=
  { lazy_global := Option.none
    non_lazy_global := file_wide_computation
    fscRuns := 0 }

/-- Truthiness of `lazy_global` (`None` or `0` falsy, other ints truthy):
what `if not lazy_global:` tests. -/
def optNatTruthy : Option Nat → Bool
  | Option.none => false
  | Option.some n => n != 0

/-- Python `str` of `lazy_global`'s value, for the response format string. -/
def optNatStr : Option Nat → String
  | Option.none => "None"
  | Option.some n => toString n

/-- `lazy_globals(request)` from `functions/tips/main.py`: assigns
`lazy_global` when it is falsy, then formats the response
`'Lazy: \x7b\x7d, non-lazy: \x7b\x7d.'` with the two globals. -/
def lazy_globals (s : LazyState) : LazyState × String :=
  let s' :=
    if !optNatTruthy s.lazy_global then
      { s with lazy_global := Option.some function_specific_computation
               fscRuns := s.fscRuns + 1 }
    else s
  (s', "Lazy: " ++ optNatStr s'.lazy_global ++ ", non-lazy: "
        ++ toString s'.non_lazy_global ++ ".")

/-- One state step of `lazy_globals`, for iterating calls. -/
def lazyStep (s : LazyState) : LazyState := (lazy_globals s).fst

/-- A concrete parse function for witnesses: two parseable timestamp
strings (microsecond values 0 and 5000000), everything else unparsable. -/
def wparse : String → Option Int :=
  fun ts =>
    if ts = "t0" then Option.some 0
    else if ts = "t5" then Option.some 5000000
    else Option.none

/-- C1: for every event with a parseable timestamp, `avoid_infinite_retries`
succeeds and returns Drop (the `'Timeout'` return) exactly when
`age_ms > 10000` (the hardcoded `max_age_ms` default) and Process exactly
when `age_ms <= 10000`, the boundary `age_ms = 10000` included. -/
theorem admit_drop_iff_stale (parse : String → Option Int) (now : Int)
    (event : Event) (context : Context) (t : Int)
    (h : parse event.timestamp = Option.some t) :
    ∃ r : AdmitResult,
      avoid_infinite_retries parse now event context = Except.ok r ∧
      (r.decision = Decision.Drop ↔ event_age now t > 10000) ∧
      (r.decision = Decision.Process ↔ event_age now t ≤ 10000) := by
  by_cases hc : event_age now t > 10000
  · refine ⟨⟨[⟨"Dropped", context.event_id, event_age now t⟩],
      Option.some "Timeout"⟩, ?_, ?_, ?_⟩
    · simp [avoid_infinite_retries, h, hc]
    · simp [AdmitResult.decision, hc]
    · simp [AdmitResult.decision]
      exact hc
  · refine ⟨⟨[⟨"Processed", context.event_id, event_age now t⟩],
      Option.none⟩, ?_, ?_, ?_⟩
    · simp [avoid_infinite_retries, h, hc]
    · simp [AdmitResult.decision, hc]
    · simp [AdmitResult.decision]
      exact not_lt.mp hc

/-- C1 witness: at `now = 15000000` µs and event time 0 the age is 15000 ms,
and the filter's decision satisfies the two equivalences. -/
theorem admit_drop_iff_stale_witness :
    wparse "t0" = Option.some 0 ∧
    (∃ r : AdmitResult,
      avoid_infinite_retries wparse 15000000 ⟨"t0", []⟩ ⟨"evt-1"⟩
          = Except.ok r ∧
      (r.decision = Decision.Drop ↔ event_age 15000000 0 > 10000) ∧
      (r.decision = Decision.Process ↔ event_age 15000000 0 ≤ 10000)) :=
  ⟨by decide,
   admit_drop_iff_stale wparse 15000000 ⟨"t0", []⟩ ⟨"evt-1"⟩ 0 (by decide)⟩

/-- C5: an event timestamp in the future of `now` (negative age) is treated
as fresh: `avoid_infinite_retries` succeeds and returns Process. -/
theorem admit_future_is_fresh (parse : String → Option Int) (now : Int)
    (event : Event) (context : Context) (t : Int)
    (h : parse event.timestamp = Option.some t) (hfut : now < t) :
    event_age now t < 0 ∧
    ∃ r : AdmitResult,
      avoid_infinite_retries parse now event context = Except.ok r ∧
      r.decision = Decision.Process := by
  have hneg : event_age now t < 0 := by
    unfold event_age
    apply div_neg_of_neg_of_pos
    · exact_mod_cast Int.sub_neg_of_lt hfut
    · norm_num
  have hc : ¬ event_age now t > 10000 := by
    intro hgt
    exact absurd (hneg.trans (by norm_num)) (not_lt.mpr (le_of_lt hgt))
  refine ⟨hneg, ⟨[⟨"Processed", context.event_id, event_age now t⟩],
    Option.none⟩, ?_, ?_⟩
  · simp [avoid_infinite_retries, h, hc]
  · simp [AdmitResult.decision]

/-- C5 witness: event time 5000000 µs lies in the future of `now = 0`, and
the filter processes it. -/
theorem admit_future_is_fresh_witness :
    (wparse "t5" = Option.some 5000000 ∧ (0 : Int) < 5000000) ∧
    (event_age 0 5000000 < 0 ∧
      ∃ r : AdmitResult,
        avoid_infinite_retries wparse 0 ⟨"t5", []⟩ ⟨"evt-1"⟩ = Except.ok r ∧
        r.decision = Decision.Process) :=
  ⟨⟨by decide, by decide⟩,
   admit_future_is_fresh wparse 0 ⟨"t5", []⟩ ⟨"evt-1"⟩ 5000000
     (by decide) (by decide)⟩

/-- C6: an unparsable timestamp makes the `avoid_infinite_retries` call fail
with `malformedTimestamp`; no Process/Drop decision is produced. -/
theorem admit_malformed_timestamp (parse : String → Option Int) (now : Int)
    (event : Event) (context : Context)
    (h : parse event.timestamp = Option.none) :
    avoid_infinite_retries parse now event context =
      Except.error AdmitError.malformedTimestamp := by
  simp [avoid_infinite_retries, h]

/-- C6 witness: the string `"garbage"` is unparsable and the call fails. -/
theorem admit_malformed_timestamp_witness :
    wparse "garbage" = Option.none ∧
    avoid_infinite_retries wparse 0 ⟨"garbage", []⟩ ⟨"evt-1"⟩ =
      Except.error AdmitError.malformedTimestamp :=
  ⟨by decide,
   admit_malformed_timestamp wparse 0 ⟨"garbage", []⟩ ⟨"evt-1"⟩ (by decide)⟩

/-- C2: when the payload requests a retry and the Failure Sink's report call
succeeds, `retry_or_not` re-raises the handler failure (Propagate) and the
sink receives exactly one report call. -/
theorem classify_retry_propagates (event : Event) (context : Context)
    (h : (dictGet event.data "retry").truthy = true) :
    (retry_or_not Option.none event context).snd
        = ROutcome.raised "I failed you" ∧
    reportCalls (retry_or_not Option.none event context).fst = 1 ∧
    REv.decided true ∈ (retry_or_not Option.none event context).fst := by
  refine ⟨?_, ?_, ?_⟩ <;> simp [retry_or_not, h, reportCalls]

/-- C2 witness: payload `retry = True` makes the failure propagate after one
report call. -/
theorem classify_retry_propagates_witness :
    (dictGet [("retry", PyVal.pybool true)] "retry").truthy = true ∧
    ((retry_or_not Option.none ⟨"t0", [("retry", PyVal.pybool true)]⟩
          ⟨"evt-1"⟩).snd = ROutcome.raised "I failed you" ∧
      reportCalls (retry_or_not Option.none
          ⟨"t0", [("retry", PyVal.pybool true)]⟩ ⟨"evt-1"⟩).fst = 1 ∧
      REv.decided true ∈ (retry_or_not Option.none
          ⟨"t0", [("retry", PyVal.pybool true)]⟩ ⟨"evt-1"⟩).fst) :=
  ⟨by decide,
   classify_retry_propagates ⟨"t0", [("retry", PyVal.pybool true)]⟩ ⟨"evt-1"⟩
     (by decide)⟩

/-- C3: when the payload does not request a retry and the Failure Sink's
report call succeeds, `retry_or_not` swallows the failure and returns
normally (Suppress), and the sink receives exactly one report call. -/
theorem classify_no_retry_suppresses (event : Event) (context : Context)
    (h : (dictGet event.data "retry").truthy = false) :
    (retry_or_not Option.none event context).snd = ROutcome.returned ∧
    reportCalls (retry_or_not Option.none event context).fst = 1 ∧
    REv.decided false ∈ (retry_or_not Option.none event context).fst := by
  refine ⟨?_, ?_, ?_⟩ <;> simp [retry_or_not, h, reportCalls]

/-- C3 witness: payload `retry = False` makes the call return normally after
one report call. -/
theorem classify_no_retry_suppresses_witness :
    (dictGet [("retry", PyVal.pybool false)] "retry").truthy = false ∧
    ((retry_or_not Option.none ⟨"t0", [("retry", PyVal.pybool false)]⟩
          ⟨"evt-1"⟩).snd = ROutcome.returned ∧
      reportCalls (retry_or_not Option.none
          ⟨"t0", [("retry", PyVal.pybool false)]⟩ ⟨"evt-1"⟩).fst = 1 ∧
      REv.decided false ∈ (retry_or_not Option.none
          ⟨"t0", [("retry", PyVal.pybool false)]⟩ ⟨"evt-1"⟩).fst) :=
  ⟨by decide,
   classify_no_retry_suppresses ⟨"t0", [("retry", PyVal.pybool false)]⟩
     ⟨"evt-1"⟩ (by decide)⟩

/-- C4 counterexample: the source does not guard
`error_client.report_exception()` with a `try`, so when the sink raises on
an event with `retry_requested` false, the claimed Action (Suppress, a
normal return) is not produced: the sink's exception propagates out of
`retry_or_not` and no Suppress/Propagate decision is ever reached. -/
theorem classify_sink_failure_cex :
    (retry_or_not (Option.some "sink down") ⟨"t0", []⟩ ⟨"evt-1"⟩).snd
        = ROutcome.sinkRaised "sink down" ∧
    (retry_or_not (Option.some "sink down") ⟨"t0", []⟩ ⟨"evt-1"⟩).snd
        ≠ ROutcome.returned ∧
    REv.decided true ∉
      (retry_or_not (Option.some "sink down") ⟨"t0", []⟩ ⟨"evt-1"⟩).fst ∧
    REv.decided false ∉
      (retry_or_not (Option.some "sink down") ⟨"t0", []⟩ ⟨"evt-1"⟩).fst := by
  decide

/-- C4 amended: when the Failure Sink's report call raises, the exception is
not caught: it propagates out of `retry_or_not`, the Suppress/Propagate
decision is never made, and the sink was still called exactly once. -/
theorem classify_sink_failure_escalates (msg : String) (event : Event)
    (context : Context) :
    (retry_or_not (Option.some msg) event context).snd
        = ROutcome.sinkRaised msg ∧
    reportCalls (retry_or_not (Option.some msg) event context).fst = 1 ∧
    REv.decided true ∉ (retry_or_not (Option.some msg) event context).fst ∧
    REv.decided false ∉ (retry_or_not (Option.some msg) event context).fst := by
  refine ⟨?_, ?_, ?_, ?_⟩ <;> simp [retry_or_not, reportCalls]

/-- C7: in every execution of `retry_or_not`, the retry flag is read first
(before the handler body raises), the sink report comes after the failure,
there is exactly one report call, and any decision event is strictly after
the report call. -/
theorem classify_read_then_report_then_decide (sinkError : Option String)
    (event : Event) (context : Context) :
    reportCalls (retry_or_not sinkError event context).fst = 1 ∧
    ∃ rest : List REv,
      (retry_or_not sinkError event context).fst =
        REv.readRetry (dictGet event.data "retry") ::
          REv.handlerRaised "I failed you" :: REv.reportCall :: rest ∧
      reportCalls rest = 0 ∧
      ∀ b : Bool,
        REv.decided b ∈ (retry_or_not sinkError event context).fst →
          REv.decided b ∈ rest := by
  cases sinkError with
  | none =>
    by_cases h : (dictGet event.data "retry").truthy
    · exact ⟨by simp [retry_or_not, h, reportCalls],
        [REv.decided true], by simp [retry_or_not, h],
        by simp [reportCalls],
        by intro b hb; simpa [retry_or_not, h] using hb⟩
    · simp only [Bool.not_eq_true] at h
      exact ⟨by simp [retry_or_not, h, reportCalls],
        [REv.decided false], by simp [retry_or_not, h],
        by simp [reportCalls],
        by intro b hb; simpa [retry_or_not, h] using hb⟩
  | some msg =>
    exact ⟨by simp [retry_or_not, reportCalls],
      [], by simp [retry_or_not], by simp [reportCalls],
      by intro b hb; simpa [retry_or_not] using hb⟩

/-- C7 witness: the ordering property at a concrete event whose payload
requests a retry, with a succeeding sink. -/
theorem classify_read_then_report_then_decide_witness :
    reportCalls (retry_or_not Option.none
        ⟨"t0", [("retry", PyVal.pybool true)]⟩ ⟨"evt-1"⟩).fst = 1 ∧
    ∃ rest : List REv,
      (retry_or_not Option.none ⟨"t0", [("retry", PyVal.pybool true)]⟩
          ⟨"evt-1"⟩).fst =
        REv.readRetry (dictGet [("retry", PyVal.pybool true)] "retry") ::
          REv.handlerRaised "I failed you" :: REv.reportCall :: rest ∧
      reportCalls rest = 0 ∧
      ∀ b : Bool,
        REv.decided b ∈ (retry_or_not Option.none
            ⟨"t0", [("retry", PyVal.pybool true)]⟩ ⟨"evt-1"⟩).fst →
          REv.decided b ∈ rest :=
  classify_read_then_report_then_decide Option.none
    ⟨"t0", [("retry", PyVal.pybool true)]⟩ ⟨"evt-1"⟩

/-- C9: truthiness of `event.data.get('retry')` alone decides the outcome:
a missing key and the falsy values `None`, `False`, `0`, `''` all suppress
(normal return), while truthy non-boolean values such as `7` or `'x'`
propagate the failure. -/
theorem classify_truthiness_decides (event : Event) (context : Context) :
    ((retry_or_not Option.none event context).snd
        = ROutcome.raised "I failed you" ↔
      (dictGet event.data "retry").truthy = true) ∧
    ((retry_or_not Option.none event context).snd = ROutcome.returned ↔
      (dictGet event.data "retry").truthy = false) ∧
    (retry_or_not Option.none ⟨event.timestamp, []⟩ context).snd
        = ROutcome.returned ∧
    (retry_or_not Option.none ⟨event.timestamp, [("retry", PyVal.pynone)]⟩
        context).snd = ROutcome.returned ∧
    (retry_or_not Option.none
        ⟨event.timestamp, [("retry", PyVal.pybool false)]⟩ context).snd
        = ROutcome.returned ∧
    (retry_or_not Option.none ⟨event.timestamp, [("retry", PyVal.pyint 0)]⟩
        context).snd = ROutcome.returned ∧
    (retry_or_not Option.none ⟨event.timestamp, [("retry", PyVal.pystr "")]⟩
        context).snd = ROutcome.returned ∧
    (retry_or_not Option.none ⟨event.timestamp, [("retry", PyVal.pyint 7)]⟩
        context).snd = ROutcome.raised "I failed you" ∧
    (retry_or_not Option.none ⟨event.timestamp, [("retry", PyVal.pystr "x")]⟩
        context).snd = ROutcome.raised "I failed you" := by
  refine ⟨?_, ?_, ?_, ?_, ?_, ?_, ?_, ?_, ?_⟩
  · by_cases h : (dictGet event.data "retry").truthy <;> simp [retry_or_not, h]
  · by_cases h : (dictGet event.data "retry").truthy <;> simp [retry_or_not, h]
  all_goals simp [retry_or_not, dictGet, PyVal.truthy]

/-- C8: `avoid_infinite_retries` and `retry_or_not` are pure in their
inputs: running either twice with identical inputs against the module state
yields identical outputs and identical external-call increments (the same
records printed, the same number of sink reports), the admission filter
never touches the error client, the classifier never prints, and no other
module state accumulates between the calls. -/
theorem handlers_stateless (parse : String → Option Int) (now : Int)
    (sinkError : Option String) (event : Event) (context : Context)
    (s : ModuleState) :
    (admitRun parse now event context
        (admitRun parse now event context s).fst).snd
      = (admitRun parse now event context s).snd ∧
    (∃ newLogs : List LogRecord,
      (admitRun parse now event context s).fst.printedRecords
          = s.printedRecords ++ newLogs ∧
      (admitRun parse now event context
          (admitRun parse now event context s).fst).fst.printedRecords
          = (admitRun parse now event context s).fst.printedRecords
              ++ newLogs) ∧
    (admitRun parse now event context s).fst.reportsMade = s.reportsMade ∧
    (classifyRun sinkError event context
        (classifyRun sinkError event context s).fst).snd
      = (classifyRun sinkError event context s).snd ∧
    (∃ k : Nat,
      (classifyRun sinkError event context s).fst.reportsMade
          = s.reportsMade + k ∧
      (classifyRun sinkError event context
          (classifyRun sinkError event context s).fst).fst.reportsMade
          = (classifyRun sinkError event context s).fst.reportsMade + k) ∧
    (classifyRun sinkError event context s).fst.printedRecords
      = s.printedRecords := by
  refine ⟨?_, ?_, ?_, ?_, ?_, ?_⟩
  · cases h : avoid_infinite_retries parse now event context <;>
      simp [admitRun, h]
  · cases h : avoid_infinite_retries parse now event context with
    | error e => exact ⟨[], by simp [admitRun, h], by simp [admitRun, h]⟩
    | ok r => exact ⟨r.logs, by simp [admitRun, h], by simp [admitRun, h]⟩
  · cases h : avoid_infinite_retries parse now event context <;>
      simp [admitRun, h]
  · simp [classifyRun]
  · exact ⟨reportCalls (retry_or_not sinkError event context).fst,
      by simp [classifyRun], by simp [classifyRun]⟩
  · simp [classifyRun]

/-- C10: from cold start, the first call to `lazy_globals` sets
`lazy_global` to `function_specific_computation()` = 45 (truthy) after one
run of that computation; every later call leaves the state unchanged (no
recomputation, no reassignment: the run counter stays 1) and returns the
same response string; `non_lazy_global` is 45 at module load and is never
modified by any call. -/
theorem lazy_globals_memoized (n : Nat) (s : LazyState) :
    (lazyStep coldStart).lazy_global = Option.some 45 ∧
    (lazyStep coldStart).fscRuns = 1 ∧
    function_specific_computation = 45 ∧
    optNatTruthy (Option.some 45) = true ∧
    lazyStep^[n] (lazyStep coldStart) = lazyStep coldStart ∧
    (lazy_globals (lazyStep^[n] (lazyStep coldStart))).snd
        = "Lazy: 45, non-lazy: 45." ∧
    (lazy_globals s).fst.non_lazy_global = s.non_lazy_global ∧
    coldStart.non_lazy_global = 45 := by
  have hfix : lazyStep (lazyStep coldStart) = lazyStep coldStart := by decide
  have hiter : lazyStep^[n] (lazyStep coldStart) = lazyStep coldStart :=
    Function.iterate_fixed hfix n
  refine ⟨by decide, by decide, by decide, by decide, hiter, ?_, ?_, by decide⟩
  · rw [hiter]
    decide
  · unfold lazy_globals
    dsimp only []
    split <;> rfl

end FunctionsTips
